import Mathlib

/-!
Shallow embedding of `src/instructions/external.rs` from the evmodin EVM
interpreter: the state-touching instruction handlers (BALANCE, EXTCODESIZE,
SLOAD, SSTORE, BLOCKHASH, LOG0-4, SELFDESTRUCT) together with their
revision-gated gas rules and the host interrupt/resume protocol.

Each handler in the source is a coroutine that suspends with an interrupt
request and resumes with the host's answer. Here a handler is a pure
function taking a `Host` oracle (supplying every answer the real host could
give) and an `ExecutionState`, and returning the mutated state, the ordered
list of interrupt requests it issued, and `none` on success or `some code`
on failure. State mutations performed before a failure persist, exactly as
a Rust early `return Err(..)` leaves the `&mut` state.
-/

namespace Evmodin

/-- Protocol revisions, totally ordered, mirroring `Revision` in the host
module (referenced, though declared outside `src/`): the ordering is the
chronological upgrade sequence. -/
inductive Revision
  | Frontier
  | Homestead
  | Tangerine
  | Spurious
  | Byzantium
  | Constantinople
  | Petersburg
  | Istanbul
  | Berlin
  | London
  deriving DecidableEq, Repr

/-- Position of a revision in the upgrade sequence. -/
def Revision.idx : Revision → Nat
  | .Frontier => 0
  | .Homestead => 1
  | .Tangerine => 2
  | .Spurious => 3
  | .Byzantium => 4
  | .Constantinople => 5
  | .Petersburg => 6
  | .Istanbul => 7
  | .Berlin => 8
  | .London => 9

/-- The `>=` comparison on revisions used by every gate in the handlers. -/
def Revision.ge (a b : Revision) : Bool := b.idx ≤ a.idx

/-- Cold/warm access status reported by the host (EIP-2929 access lists). -/
inductive AccessStatus
  | Cold
  | Warm
  deriving DecidableEq, Repr

/-- Host-reported classification of a storage write's effect. -/
inductive StorageStatus
  | Unchanged
  | Modified
  | ModifiedAgain
  | Added
  | Deleted
  deriving DecidableEq, Repr

/-- The failure statuses these handlers can return. -/
inductive StatusCode
  | OutOfGas
  | StaticModeViolation
  deriving DecidableEq, Repr

/-- Modelled from the spec: the gas-cost constants of
`instructions/properties.rs`, which is not under `src/`. The spec names
them (cold-sload cost, warm-storage-read cost, cold-account-access cost);
their values are the EIP-2929 constants those names denote. Every claim
below depends on them only through the stated differences and sums. -/
def COLD_SLOAD_COST : Nat := 2100

/-- Modelled from the spec: warm storage/account read cost (EIP-2929). -/
def WARM_STORAGE_READ_COST : Nat := 100

/-- Modelled from the spec: cold account access cost (EIP-2929). -/
def COLD_ACCOUNT_ACCESS_COST : Nat := 2600

/-- Modelled from the spec: the cold-minus-warm account surcharge constant
of `instructions/properties.rs`, defined there as the difference of the two
cost constants. -/
def ADDITIONAL_COLD_ACCOUNT_ACCESS_COST : Nat :=
  COLD_ACCOUNT_ACCESS_COST - WARM_STORAGE_READ_COST

/-- The cold-minus-warm sload surcharge, defined inline in the `sload`
handler in `external.rs` as `COLD_SLOAD_COST - WARM_STORAGE_READ_COST`. -/
def ADDITIONAL_COLD_SLOAD_COST : Nat :=
  COLD_SLOAD_COST - WARM_STORAGE_READ_COST

/-- Modelled from the spec: `u256_to_address` from `common.rs` (not under
`src/`) truncates a 256-bit word to its low 160 bits, as pinned by the
`u256_to_address_conversion` unit test in `external.rs` and the spec's
statement that the popped word forms a 20-byte address. -/
def u256_to_address (w : Nat) : Nat := w % 2 ^ 160

/-- Call-frame message context (the fields these handlers touch). -/
structure Message where
  destination : Nat
  sender : Nat
  value : Nat
  is_static : Bool
  deriving DecidableEq, Repr

/-- Per-frame execution state: stack of 256-bit words (top first), byte
memory, signed 64-bit gas counter (modelled as `Int`; every deduction is
followed by the source's own `< 0` check), message and active revision. -/
structure ExecutionState where
  stack : List Nat
  memory : List Nat
  gas_left : Int
  message : Message
  evm_revision : Revision
  deriving DecidableEq, Repr

/-- Transaction context; only the field these handlers read is modelled. -/
structure TxContext where
  block_number : Nat
  deriving DecidableEq, Repr

/-- The closed catalogue of interrupt requests issued by these handlers. -/
inductive InterruptData
  | AccessAccount (address : Nat)
  | AccessStorage (address : Nat) (key : Nat)
  | GetBalance (address : Nat)
  | GetCodeSize (address : Nat)
  | GetTxContext
  | GetBlockHash (block_number : Nat)
  | GetStorage (address : Nat) (key : Nat)
  | SetStorage (address : Nat) (key : Nat) (value : Nat)
  | AccountExists (address : Nat)
  | EmitLog (address : Nat) (data : List Nat) (topics : List Nat)
  | Selfdestruct (address : Nat) (beneficiary : Nat)
  deriving DecidableEq, Repr

/-- Host oracle: one answer function per request kind. A run of a handler
against `H` models the coroutine resumed with these answers in order. -/
structure Host where
  accessAccount : Nat → AccessStatus
  accessStorage : Nat → Nat → AccessStatus
  getBalance : Nat → Nat
  getCodeSize : Nat → Nat
  txContext : TxContext
  getBlockHash : Nat → Nat
  getStorage : Nat → Nat → Nat
  setStorage : Nat → Nat → Nat → StorageStatus
  accountExists : Nat → Bool

/-- Handler outcome: final state, interrupt requests issued in order, and
`none` for success or `some code` for a typed failure. -/
abbrev Outcome := ExecutionState × List InterruptData × Option StatusCode

/-- `Stack::pop`. The dispatcher guarantees a non-empty stack before a
handler runs; the `[]` case is unreachable and returns a dummy `0`. -/
def pop : List Nat → Nat × List Nat
  | [] => (0, [])
  | a :: rest => (a, rest)

/-- The `balance!` handler body from `external.rs`. -/
def balance (H : Host) (s : ExecutionState) : Outcome :=
  let p := pop s.stack
  let address := u256_to_address p.1
  let s1 := { s with stack := p.2 }
  if s1.evm_revision.ge .Berlin then
    if H.accessAccount address = .Cold then
      let s2 := { s1 with
        gas_left := s1.gas_left - (ADDITIONAL_COLD_ACCOUNT_ACCESS_COST : Int) }
      if s2.gas_left < 0 then
        (s2, [.AccessAccount address], some .OutOfGas)
      else
        let b := H.getBalance address % 2 ^ 256
        ({ s2 with stack := b :: s2.stack },
          [.AccessAccount address, .GetBalance address], none)
    else
      let b := H.getBalance address % 2 ^ 256
      ({ s1 with stack := b :: s1.stack },
        [.AccessAccount address, .GetBalance address], none)
  else
    let b := H.getBalance address % 2 ^ 256
    ({ s1 with stack := b :: s1.stack }, [.GetBalance address], none)

/-- The `extcodesize!` handler body from `external.rs`. -/
def extcodesize (H : Host) (s : ExecutionState) : Outcome :=
  let p := pop s.stack
  let address := u256_to_address p.1
  let s1 := { s with stack := p.2 }
  if s1.evm_revision.ge .Berlin then
    if H.accessAccount address = .Cold then
      let s2 := { s1 with
        gas_left := s1.gas_left - (ADDITIONAL_COLD_ACCOUNT_ACCESS_COST : Int) }
      if s2.gas_left < 0 then
        (s2, [.AccessAccount address], some .OutOfGas)
      else
        let c := H.getCodeSize address % 2 ^ 256
        ({ s2 with stack := c :: s2.stack },
          [.AccessAccount address, .GetCodeSize address], none)
    else
      let c := H.getCodeSize address % 2 ^ 256
      ({ s1 with stack := c :: s1.stack },
        [.AccessAccount address, .GetCodeSize address], none)
  else
    let c := H.getCodeSize address % 2 ^ 256
    ({ s1 with stack := c :: s1.stack }, [.GetCodeSize address], none)

/-- The `sload!` handler body from `external.rs`. The popped word is the
storage key (a full 256-bit value). -/
def sload (H : Host) (s : ExecutionState) : Outcome :=
  let p := pop s.stack
  let key := p.1
  let s1 := { s with stack := p.2 }
  let dest := s1.message.destination
  if s1.evm_revision.ge .Berlin then
    if H.accessStorage dest key = .Cold then
      let s2 := { s1 with
        gas_left := s1.gas_left - (ADDITIONAL_COLD_SLOAD_COST : Int) }
      if s2.gas_left < 0 then
        (s2, [.AccessStorage dest key], some .OutOfGas)
      else
        let v := H.getStorage dest key % 2 ^ 256
        ({ s2 with stack := v :: s2.stack },
          [.AccessStorage dest key, .GetStorage dest key], none)
    else
      let v := H.getStorage dest key % 2 ^ 256
      ({ s1 with stack := v :: s1.stack },
        [.AccessStorage dest key, .GetStorage dest key], none)
  else
    let v := H.getStorage dest key % 2 ^ 256
    ({ s1 with stack := v :: s1.stack }, [.GetStorage dest key], none)

/-- `u64::MAX`. -/
def U64_MAX : Nat := 2 ^ 64 - 1

/-- The `blockhash!` handler body from `external.rs`. `lower_bound` is
`upper_bound.saturating_sub(256)`, which is `Nat` subtraction here. -/
def blockhash (H : Host) (s : ExecutionState) : Outcome :=
  let p := pop s.stack
  let number := p.1
  let s1 := { s with stack := p.2 }
  let upper_bound := H.txContext.block_number
  let lower_bound := upper_bound - 256
  if number ≤ U64_MAX then
    if lower_bound ≤ number ∧ number < upper_bound then
      let header := H.getBlockHash number % 2 ^ 256
      ({ s1 with stack := header :: s1.stack },
        [.GetTxContext, .GetBlockHash number], none)
    else
      ({ s1 with stack := 0 :: s1.stack }, [.GetTxContext], none)
  else
    ({ s1 with stack := 0 :: s1.stack }, [.GetTxContext], none)

/-- The SSTORE dynamic-cost computation exactly as the `sstore!` handler
builds its `cost` variable: `cost0` is the accumulator, set to
`COLD_SLOAD_COST` by the Berlin-gated access query when it reports Cold,
then the `match` on the reported `StorageStatus` produces the final cost
(`u16` arithmetic in the source; all values fit, and the one subtraction
never borrows since `cost0 + 5000 ≥ COLD_SLOAD_COST`). -/
def sstoreCost (rev : Revision) (access : AccessStatus)
    (status : StorageStatus) : Nat :=
  let cost0 : Nat :=
    if rev.ge .Berlin ∧ access = .Cold then COLD_SLOAD_COST else 0
  match status with
  | .Unchanged | .ModifiedAgain =>
    if rev.ge .Berlin then cost0 + WARM_STORAGE_READ_COST
    else if rev = .Istanbul then 800
    else if rev = .Constantinople then 200
    else 5000
  | .Modified | .Deleted =>
    if rev.ge .Berlin then cost0 + 5000 - COLD_SLOAD_COST
    else 5000
  | .Added => cost0 + 20000

/-- The `sstore!` handler body from `external.rs`: static guard, Istanbul
stipend-floor guard, pop key then value, Berlin-gated access query feeding
the cost accumulator, the `SetStorage` write request, then the single
dynamic-cost deduction and its `< 0` check. -/
def sstore (H : Host) (s : ExecutionState) : Outcome :=
  if s.message.is_static then
    (s, [], some .StaticModeViolation)
  else if s.evm_revision.ge .Istanbul ∧ s.gas_left ≤ 2300 then
    (s, [], some .OutOfGas)
  else
    let p1 := pop s.stack
    let key := p1.1
    let p2 := pop p1.2
    let value := p2.1
    let s1 := { s with stack := p2.2 }
    let dest := s1.message.destination
    let accessReqs : List InterruptData :=
      if s1.evm_revision.ge .Berlin then [.AccessStorage dest key] else []
    let status := H.setStorage dest key value
    let reqs := accessReqs ++ [.SetStorage dest key value]
    let cost := sstoreCost s1.evm_revision (H.accessStorage dest key) status
    let s2 := { s1 with gas_left := s1.gas_left - (cost : Int) }
    if s2.gas_left < 0 then (s2, reqs, some .OutOfGas)
    else (s2, reqs, none)

/-- A validated memory region as returned by the external accessor:
`verify_memory_region` returns `None` for a zero-size request, otherwise a
pair with a `NonZeroUsize` size. -/
structure MemoryRegion where
  offset : Nat
  size : Nat
  deriving DecidableEq, Repr

/-- Two's-complement wrap of an integer into the `i64` range, used where
the source performs an `as i64` cast and `i64` multiplication whose
overflow the source itself then tests with a sign check. -/
def i64wrap (n : Int) : Int := (n + 2 ^ 63) % 2 ^ 64 - 2 ^ 63

/-- The type of the external collaborator `memory::verify_memory_region`:
given the state and the popped 256-bit offset and size, it either charges
memory-expansion gas and returns the validated optional region, or fails
(which `do_log` maps to OutOfGas). It is out of scope for this core (spec
section 6), so `do_log` is parameterized over it. -/
abbrev VerifyMemoryRegion :=
  ExecutionState → Nat → Nat → ExecutionState × Except Unit (Option MemoryRegion)

/-- Modelled from the spec: a minimal instance of the external
memory-region accessor interface of spec section 6, validating every
region (charging no expansion gas) and returning no region for size 0.
Used to instantiate `do_log` at concrete inputs. -/
def vmrPlain : VerifyMemoryRegion := fun s offset size =>
  if size = 0 then (s, .ok none) else (s, .ok (some ⟨offset, size⟩))

/-- Pop `n` words: the `for _ in 0..num_topics` topic-popping loop. -/
def popN : Nat → List Nat → List Nat × List Nat
  | 0, st => ([], st)
  | n + 1, st =>
    let p := pop st
    let q := popN n p.2
    (p.1 :: q.1, q.2)

/-- The `do_log!` handler body from `external.rs`, parameterized by the
topic count and the external region accessor. Note the source computes
`cost = region.size as i64 * 8`, deducts it, and then tests `cost < 0`
(the sign of the cost, not of the remaining gas). -/
def do_log (vmr : VerifyMemoryRegion) (num_topics : Nat) (_H : Host)
    (s : ExecutionState) : Outcome :=
  if s.message.is_static then
    (s, [], some .StaticModeViolation)
  else
    let p1 := pop s.stack
    let offset := p1.1
    let p2 := pop p1.2
    let size := p2.1
    let s1 := { s with stack := p2.2 }
    match vmr s1 offset size with
    | (s2, .error _) => (s2, [], some .OutOfGas)
    | (s2, .ok region) =>
      match region with
      | some r =>
        let cost := i64wrap (i64wrap (r.size : Int) * 8)
        let s3 := { s2 with gas_left := s2.gas_left - cost }
        if cost < 0 then (s3, [], some .OutOfGas)
        else
          let q := popN num_topics s3.stack
          let s4 := { s3 with stack := q.2 }
          let data := (s4.memory.drop r.offset).take r.size
          (s4, [.EmitLog s4.message.destination data q.1], none)
      | none =>
        let q := popN num_topics s2.stack
        let s4 := { s2 with stack := q.2 }
        (s4, [.EmitLog s4.message.destination [] q.1], none)

/-- The inner non-existent-beneficiary branch of `selfdestruct!`: the
`AccountExists` query, the flat 25000 deduction when the beneficiary does
not exist, and the final `Selfdestruct` effect request. -/
def selfdestruct_charge (H : Host) (beneficiary : Nat) (s : ExecutionState)
    (reqs : List InterruptData) : Outcome :=
  let reqs1 := reqs ++ [.AccountExists beneficiary]
  if H.accountExists beneficiary then
    (s, reqs1 ++ [.Selfdestruct s.message.destination beneficiary], none)
  else
    let s2 := { s with gas_left := s.gas_left - 25000 }
    if s2.gas_left < 0 then (s2, reqs1, some .OutOfGas)
    else
      (s2, reqs1 ++ [.Selfdestruct s2.message.destination beneficiary], none)

/-- The Tangerine-gated condition of `selfdestruct!`, with the source's
short-circuit order: at exactly Tangerine the destination-balance query is
skipped entirely; after Tangerine the balance is fetched and the charge
branch runs only when it is non-zero. -/
def selfdestruct_tail (H : Host) (beneficiary : Nat) (s : ExecutionState)
    (reqs : List InterruptData) : Outcome :=
  if s.evm_revision.ge .Tangerine then
    if s.evm_revision = .Tangerine then
      selfdestruct_charge H beneficiary s reqs
    else
      let bal := H.getBalance s.message.destination
      let reqs1 := reqs ++ [.GetBalance s.message.destination]
      if bal = 0 then
        (s, reqs1 ++ [.Selfdestruct s.message.destination beneficiary], none)
      else
        selfdestruct_charge H beneficiary s reqs1
  else
    (s, reqs ++ [.Selfdestruct s.message.destination beneficiary], none)

/-- The `selfdestruct!` handler body from `external.rs`: static guard, pop
and truncate the beneficiary, Berlin-gated full cold-account-access charge,
then the Tangerine-gated 25000 surcharge and the effect request. -/
def selfdestruct (H : Host) (s : ExecutionState) : Outcome :=
  if s.message.is_static then
    (s, [], some .StaticModeViolation)
  else
    let p := pop s.stack
    let beneficiary := u256_to_address p.1
    let s1 := { s with stack := p.2 }
    if s1.evm_revision.ge .Berlin then
      if H.accessAccount beneficiary = .Cold then
        let s2 := { s1 with
          gas_left := s1.gas_left - (COLD_ACCOUNT_ACCESS_COST : Int) }
        if s2.gas_left < 0 then
          (s2, [.AccessAccount beneficiary], some .OutOfGas)
        else
          selfdestruct_tail H beneficiary s2 [.AccessAccount beneficiary]
      else
        selfdestruct_tail H beneficiary s1 [.AccessAccount beneficiary]
    else
      selfdestruct_tail H beneficiary s1 []

/-! Concrete fixtures used to instantiate the theorems below. -/

/-- A non-static call message with destination address 221. -/
def msg0 : Message := { destination := 221, sender := 1, value := 0, is_static := false }

/-- A static call message. -/
def msgStatic : Message := { destination := 221, sender := 1, value := 0, is_static := true }

/-- A host whose access queries always report Cold and whose beneficiary
accounts never exist; current block number 300. -/
def hostCold : Host :=
  { accessAccount := fun _ => .Cold
    accessStorage := fun _ _ => .Cold
    getBalance := fun _ => 5
    getCodeSize := fun _ => 7
    txContext := { block_number := 300 }
    getBlockHash := fun _ => 9
    getStorage := fun _ _ => 3
    setStorage := fun _ _ _ => .Added
    accountExists := fun _ => false }

/-- A host whose access queries always report Warm and whose accounts all
exist. -/
def hostWarm : Host :=
  { hostCold with
    accessAccount := fun _ => .Warm
    accessStorage := fun _ _ => .Warm
    accountExists := fun _ => true }

/-- A host reporting block number 300 and block hash 7 for every query. -/
def hostB300 : Host := { hostCold with getBlockHash := fun _ => 7 }

/-- Claim C4: in a non-static frame with revision at least Istanbul and
`gas_left ≤ 2300`, SSTORE fails with OutOfGas immediately: the state is
returned untouched (no operand popped) and no host request is issued. -/
theorem sstore_stipend_guard (H : Host) (s : ExecutionState)
    (hstatic : s.message.is_static = false)
    (hrev : s.evm_revision.ge .Istanbul = true)
    (hgas : s.gas_left ≤ 2300) :
    sstore H s = (s, [], some .OutOfGas) := by
  simp [sstore, hstatic, hrev, hgas]

/-- Witness for C4 at revision Istanbul with `gas_left = 2300`. -/
theorem sstore_stipend_guard_witness :
    ((⟨[1, 2], [], 2300, msg0, .Istanbul⟩ : ExecutionState).message.is_static = false ∧
     (⟨[1, 2], [], 2300, msg0, .Istanbul⟩ : ExecutionState).evm_revision.ge .Istanbul = true ∧
     (⟨[1, 2], [], 2300, msg0, .Istanbul⟩ : ExecutionState).gas_left ≤ 2300) ∧
    sstore hostCold ⟨[1, 2], [], 2300, msg0, .Istanbul⟩ =
      (⟨[1, 2], [], 2300, msg0, .Istanbul⟩, [], some .OutOfGas) :=
  ⟨⟨rfl, rfl, by decide⟩,
   sstore_stipend_guard hostCold ⟨[1, 2], [], 2300, msg0, .Istanbul⟩ rfl rfl (by decide)⟩

/-- Claim C6: when `message.is_static` is set, SSTORE, LOG0-LOG4 (any
topic count, any region accessor) and SELFDESTRUCT fail with
StaticModeViolation before popping any operand and before issuing any host
request, leaving stack and gas untouched. -/
theorem static_mode_guard (H : Host) (vmr : VerifyMemoryRegion)
    (s : ExecutionState) (hstatic : s.message.is_static = true) :
    sstore H s = (s, [], some .StaticModeViolation) ∧
    (∀ num_topics, do_log vmr num_topics H s = (s, [], some .StaticModeViolation)) ∧
    selfdestruct H s = (s, [], some .StaticModeViolation) := by
  refine ⟨?_, fun num_topics => ?_, ?_⟩ <;>
    simp [sstore, do_log, selfdestruct, hstatic]

/-- Witness for C6 on a concrete static frame. -/
theorem static_mode_guard_witness :
    (⟨[1, 2], [], 50000, msgStatic, .Berlin⟩ : ExecutionState).message.is_static = true ∧
    (sstore hostCold ⟨[1, 2], [], 50000, msgStatic, .Berlin⟩ =
       (⟨[1, 2], [], 50000, msgStatic, .Berlin⟩, [], some .StaticModeViolation) ∧
     (∀ num_topics, do_log vmrPlain num_topics hostCold ⟨[1, 2], [], 50000, msgStatic, .Berlin⟩ =
       (⟨[1, 2], [], 50000, msgStatic, .Berlin⟩, [], some .StaticModeViolation)) ∧
     selfdestruct hostCold ⟨[1, 2], [], 50000, msgStatic, .Berlin⟩ =
       (⟨[1, 2], [], 50000, msgStatic, .Berlin⟩, [], some .StaticModeViolation)) :=
  ⟨rfl, static_mode_guard hostCold vmrPlain ⟨[1, 2], [], 50000, msgStatic, .Berlin⟩ rfl⟩

/-- Claim C1 (code divergence witnessed): LOG0 over a resolved one-byte
region with `gas_left = 0` deducts the 8-per-byte charge, leaving
`gas_left = -8 < 0`, yet the handler proceeds to emit the log and
succeeds: the source tests `cost < 0` after the deduction, not
`gas_left < 0`, so the mandatory post-deduction gas check claimed by the
spec is absent. -/
theorem log_gas_check_uses_cost_sign :
    do_log vmrPlain 0 hostCold ⟨[0, 1], [170], 0, msg0, .Istanbul⟩ =
      (⟨[], [170], -8, msg0, .Istanbul⟩, [.EmitLog 221 [170] []], none) := by
  decide

/-- Claim C2 (counterexample): with current block number 300, querying
block 44 = 300 - 256 (exactly 256 behind) does not push the zero hash as
the claim's second clause states: the handler issues a GetBlockHash
request and pushes the host's answer 7. -/
theorem blockhash_exact_256_behind_requests_hash :
    (blockhash hostB300 ⟨[44], [], 100, msg0, .Istanbul⟩).1.stack = [7] ∧
    (blockhash hostB300 ⟨[44], [], 100, msg0, .Istanbul⟩).2.1 =
      [.GetTxContext, .GetBlockHash 44] := by
  exact ⟨by decide, by decide⟩

/-- Claim C2 (amended): for current block number `B < 2^64`, querying `B`
or any number at least `B` pushes the zero hash; querying any number
strictly more than 256 behind (`n + 256 < B`) pushes the zero hash;
querying any number in the saturated half-open interval `[B - 256, B)`
issues exactly one GetBlockHash request and pushes its returned hash. -/
theorem blockhash_ranges (H : Host) (s : ExecutionState) (n : Nat)
    (rest : List Nat) (hstack : s.stack = n :: rest)
    (hB : H.txContext.block_number < 2 ^ 64) :
    (H.txContext.block_number ≤ n →
       blockhash H s = ({ s with stack := 0 :: rest }, [.GetTxContext], none)) ∧
    (n + 256 < H.txContext.block_number →
       blockhash H s = ({ s with stack := 0 :: rest }, [.GetTxContext], none)) ∧
    (H.txContext.block_number - 256 ≤ n → n < H.txContext.block_number →
       blockhash H s =
         ({ s with stack := H.getBlockHash n % 2 ^ 256 :: rest },
           [.GetTxContext, .GetBlockHash n], none)) := by
  refine ⟨fun h1 => ?_, fun h2 => ?_, fun h3 h4 => ?_⟩ <;>
    simp only [blockhash, pop, hstack, U64_MAX] <;>
    [skip; rw [if_pos (by omega), if_neg (by omega)];
     rw [if_pos (by omega), if_pos (by omega)]]
  · by_cases h5 : n ≤ 2 ^ 64 - 1
    · rw [if_pos h5, if_neg (by omega)]
    · rw [if_neg h5]

/-- Witness for the amended C2 at block number 300, query 44. -/
theorem blockhash_ranges_witness :
    (⟨[44], [], 100, msg0, .Istanbul⟩ : ExecutionState).stack = 44 :: [] ∧
    hostB300.txContext.block_number < 2 ^ 64 ∧
    blockhash hostB300 ⟨[44], [], 100, msg0, .Istanbul⟩ =
      (⟨[7], [], 100, msg0, .Istanbul⟩, [.GetTxContext, .GetBlockHash 44], none) :=
  ⟨rfl, by decide,
   ((blockhash_ranges hostB300 ⟨[44], [], 100, msg0, .Istanbul⟩ 44 [] rfl
       (by decide)).2.2 (by decide) (by decide)).trans (by decide)⟩

/-! Runs of the Berlin-gated read handlers, one lemma per branch. -/

lemma balance_berlin_warm (H : Host) (s : ExecutionState) (w : Nat)
    (rest : List Nat) (hrev : s.evm_revision.ge .Berlin = true)
    (hstack : s.stack = w :: rest)
    (hw : H.accessAccount (u256_to_address w) = .Warm) :
    balance H s =
      ({ s with stack := H.getBalance (u256_to_address w) % 2 ^ 256 :: rest },
        [.AccessAccount (u256_to_address w), .GetBalance (u256_to_address w)],
        none) := by
  simp [balance, pop, hstack, hrev, hw]

lemma balance_berlin_cold (H : Host) (s : ExecutionState) (w : Nat)
    (rest : List Nat) (hrev : s.evm_revision.ge .Berlin = true)
    (hstack : s.stack = w :: rest)
    (hc : H.accessAccount (u256_to_address w) = .Cold) :
    balance H s =
      if s.gas_left - (ADDITIONAL_COLD_ACCOUNT_ACCESS_COST : Int) < 0 then
        ({ s with
            stack := rest
            gas_left := s.gas_left - (ADDITIONAL_COLD_ACCOUNT_ACCESS_COST : Int) },
          [.AccessAccount (u256_to_address w)], some .OutOfGas)
      else
        ({ s with
            stack := H.getBalance (u256_to_address w) % 2 ^ 256 :: rest
            gas_left := s.gas_left - (ADDITIONAL_COLD_ACCOUNT_ACCESS_COST : Int) },
          [.AccessAccount (u256_to_address w), .GetBalance (u256_to_address w)],
          none) := by
  simp [balance, pop, hstack, hrev, hc]

lemma extcodesize_berlin_warm (H : Host) (s : ExecutionState) (w : Nat)
    (rest : List Nat) (hrev : s.evm_revision.ge .Berlin = true)
    (hstack : s.stack = w :: rest)
    (hw : H.accessAccount (u256_to_address w) = .Warm) :
    extcodesize H s =
      ({ s with stack := H.getCodeSize (u256_to_address w) % 2 ^ 256 :: rest },
        [.AccessAccount (u256_to_address w), .GetCodeSize (u256_to_address w)],
        none) := by
  simp [extcodesize, pop, hstack, hrev, hw]

lemma extcodesize_berlin_cold (H : Host) (s : ExecutionState) (w : Nat)
    (rest : List Nat) (hrev : s.evm_revision.ge .Berlin = true)
    (hstack : s.stack = w :: rest)
    (hc : H.accessAccount (u256_to_address w) = .Cold) :
    extcodesize H s =
      if s.gas_left - (ADDITIONAL_COLD_ACCOUNT_ACCESS_COST : Int) < 0 then
        ({ s with
            stack := rest
            gas_left := s.gas_left - (ADDITIONAL_COLD_ACCOUNT_ACCESS_COST : Int) },
          [.AccessAccount (u256_to_address w)], some .OutOfGas)
      else
        ({ s with
            stack := H.getCodeSize (u256_to_address w) % 2 ^ 256 :: rest
            gas_left := s.gas_left - (ADDITIONAL_COLD_ACCOUNT_ACCESS_COST : Int) },
          [.AccessAccount (u256_to_address w), .GetCodeSize (u256_to_address w)],
          none) := by
  simp [extcodesize, pop, hstack, hrev, hc]

lemma sload_berlin_warm (H : Host) (s : ExecutionState) (w : Nat)
    (rest : List Nat) (hrev : s.evm_revision.ge .Berlin = true)
    (hstack : s.stack = w :: rest)
    (hw : H.accessStorage s.message.destination w = .Warm) :
    sload H s =
      ({ s with stack := H.getStorage s.message.destination w % 2 ^ 256 :: rest },
        [.AccessStorage s.message.destination w,
         .GetStorage s.message.destination w], none) := by
  simp [sload, pop, hstack, hrev, hw]

lemma sload_berlin_cold (H : Host) (s : ExecutionState) (w : Nat)
    (rest : List Nat) (hrev : s.evm_revision.ge .Berlin = true)
    (hstack : s.stack = w :: rest)
    (hc : H.accessStorage s.message.destination w = .Cold) :
    sload H s =
      if s.gas_left - (ADDITIONAL_COLD_SLOAD_COST : Int) < 0 then
        ({ s with
            stack := rest
            gas_left := s.gas_left - (ADDITIONAL_COLD_SLOAD_COST : Int) },
          [.AccessStorage s.message.destination w], some .OutOfGas)
      else
        ({ s with
            stack := H.getStorage s.message.destination w % 2 ^ 256 :: rest
            gas_left := s.gas_left - (ADDITIONAL_COLD_SLOAD_COST : Int) },
          [.AccessStorage s.message.destination w,
           .GetStorage s.message.destination w], none) := by
  simp [sload, pop, hstack, hrev, hc]

/-- Claim C5: for revisions at least Berlin, when the host reports Cold,
BALANCE, EXTCODESIZE and SLOAD each deduct exactly the cold-minus-warm
surcharge (`ADDITIONAL_COLD_ACCOUNT_ACCESS_COST` and
`ADDITIONAL_COLD_SLOAD_COST` are defined above as those differences, never
the full cold cost) beyond the static base cost, failing with OutOfGas
when `gas_left` becomes negative; when the host reports Warm they make no
additional deduction. -/
theorem cold_access_surcharge (H : Host) (s : ExecutionState) (w : Nat)
    (rest : List Nat) (hrev : s.evm_revision.ge .Berlin = true)
    (hstack : s.stack = w :: rest) :
    ((H.accessAccount (u256_to_address w) = .Warm →
        (balance H s).1.gas_left = s.gas_left ∧ (balance H s).2.2 = none ∧
        (extcodesize H s).1.gas_left = s.gas_left ∧
        (extcodesize H s).2.2 = none) ∧
     (H.accessAccount (u256_to_address w) = .Cold →
        ((ADDITIONAL_COLD_ACCOUNT_ACCESS_COST : Int) ≤ s.gas_left →
           (balance H s).1.gas_left =
             s.gas_left - (ADDITIONAL_COLD_ACCOUNT_ACCESS_COST : Int) ∧
           (balance H s).2.2 = none ∧
           (extcodesize H s).1.gas_left =
             s.gas_left - (ADDITIONAL_COLD_ACCOUNT_ACCESS_COST : Int) ∧
           (extcodesize H s).2.2 = none) ∧
        (s.gas_left < (ADDITIONAL_COLD_ACCOUNT_ACCESS_COST : Int) →
           (balance H s).2.2 = some .OutOfGas ∧
           (extcodesize H s).2.2 = some .OutOfGas))) ∧
    ((H.accessStorage s.message.destination w = .Warm →
        (sload H s).1.gas_left = s.gas_left ∧ (sload H s).2.2 = none) ∧
     (H.accessStorage s.message.destination w = .Cold →
        ((ADDITIONAL_COLD_SLOAD_COST : Int) ≤ s.gas_left →
           (sload H s).1.gas_left =
             s.gas_left - (ADDITIONAL_COLD_SLOAD_COST : Int) ∧
           (sload H s).2.2 = none) ∧
        (s.gas_left < (ADDITIONAL_COLD_SLOAD_COST : Int) →
           (sload H s).2.2 = some .OutOfGas))) := by
  refine ⟨⟨fun hw => ?_, fun hc => ⟨fun hge => ?_, fun hlt => ?_⟩⟩,
          ⟨fun hw => ?_, fun hc => ⟨fun hge => ?_, fun hlt => ?_⟩⟩⟩
  · rw [balance_berlin_warm H s w rest hrev hstack hw,
      extcodesize_berlin_warm H s w rest hrev hstack hw]
    exact ⟨rfl, rfl, rfl, rfl⟩
  · have hng : ¬(s.gas_left - (ADDITIONAL_COLD_ACCOUNT_ACCESS_COST : Int) < 0) := by
      omega
    rw [balance_berlin_cold H s w rest hrev hstack hc,
      extcodesize_berlin_cold H s w rest hrev hstack hc, if_neg hng, if_neg hng]
    exact ⟨rfl, rfl, rfl, rfl⟩
  · have hps : s.gas_left - (ADDITIONAL_COLD_ACCOUNT_ACCESS_COST : Int) < 0 := by
      omega
    rw [balance_berlin_cold H s w rest hrev hstack hc,
      extcodesize_berlin_cold H s w rest hrev hstack hc, if_pos hps, if_pos hps]
    exact ⟨rfl, rfl⟩
  · rw [sload_berlin_warm H s w rest hrev hstack hw]
    exact ⟨rfl, rfl⟩
  · have hng : ¬(s.gas_left - (ADDITIONAL_COLD_SLOAD_COST : Int) < 0) := by omega
    rw [sload_berlin_cold H s w rest hrev hstack hc, if_neg hng]
    exact ⟨rfl, rfl⟩
  · have hps : s.gas_left - (ADDITIONAL_COLD_SLOAD_COST : Int) < 0 := by omega
    rw [sload_berlin_cold H s w rest hrev hstack hc, if_pos hps]

/-- Witness for C5: at Berlin with 50000 gas, the all-Cold host makes
BALANCE deduct 2500 = 2600 - 100 and SLOAD deduct 2000 = 2100 - 100. -/
theorem cold_access_surcharge_witness :
    (⟨[9], [], 50000, msg0, .Berlin⟩ : ExecutionState).evm_revision.ge .Berlin = true ∧
    (⟨[9], [], 50000, msg0, .Berlin⟩ : ExecutionState).stack = 9 :: [] ∧
    (balance hostCold ⟨[9], [], 50000, msg0, .Berlin⟩).1.gas_left = 47500 ∧
    (sload hostCold ⟨[9], [], 50000, msg0, .Berlin⟩).1.gas_left = 48000 :=
  ⟨rfl, rfl,
   ((((cold_access_surcharge hostCold ⟨[9], [], 50000, msg0, .Berlin⟩ 9 []
        rfl rfl).1.2 (by decide)).1 (by decide)).1).trans (by decide),
   ((((cold_access_surcharge hostCold ⟨[9], [], 50000, msg0, .Berlin⟩ 9 []
        rfl rfl).2.2 (by decide)).1 (by decide)).1).trans (by decide)⟩

/-- The SSTORE dynamic-cost table exactly as the spec states it in its
section 4.3: the accumulator `acc` is the cold-sload cost exactly when the
Berlin-or-later access query reported Cold (and 0 otherwise);
Unchanged/ModifiedAgain costs 5000 pre-Berlin (200 at Constantinople, 800
at Istanbul) and warm-storage-read cost plus the accumulator at Berlin and
later; Modified/Deleted costs 5000 pre-Berlin and 5000 minus
cold-sload-cost plus the accumulator at Berlin and later; Added costs
20000 plus the accumulator. -/
def sstoreSpecCost (rev : Revision) (access : AccessStatus)
    (status : StorageStatus) : Nat :=
  let acc : Nat := if rev.ge .Berlin ∧ access = .Cold then COLD_SLOAD_COST else 0
  match status with
  | .Unchanged | .ModifiedAgain =>
    if rev.ge .Berlin then WARM_STORAGE_READ_COST + acc
    else if rev = .Istanbul then 800
    else if rev = .Constantinople then 200
    else 5000
  | .Modified | .Deleted =>
    if rev.ge .Berlin then 5000 - COLD_SLOAD_COST + acc
    else 5000
  | .Added => 20000 + acc

lemma sstoreCost_eq_spec (rev : Revision) (a : AccessStatus)
    (st : StorageStatus) : sstoreCost rev a st = sstoreSpecCost rev a st := by
  cases rev <;> cases a <;> cases st <;> rfl

lemma sstoreCost_le (rev : Revision) (a : AccessStatus) (st : StorageStatus) :
    sstoreCost rev a st ≤ 22100 := by
  cases rev <;> cases a <;> cases st <;> decide

/-- Characterization of an SSTORE run past the static and stipend guards:
the trace is the Berlin-gated access query followed by the SetStorage
write, the dynamic cost is deducted once, and the outcome is OutOfGas
exactly when the deduction drives the gas negative. -/
lemma sstore_run (H : Host) (s : ExecutionState) (k v : Nat)
    (rest : List Nat) (hstatic : s.message.is_static = false)
    (hguard : ¬(s.evm_revision.ge .Istanbul = true ∧ s.gas_left ≤ 2300))
    (hstack : s.stack = k :: v :: rest) :
    sstore H s =
      (if s.gas_left - (sstoreCost s.evm_revision
          (H.accessStorage s.message.destination k)
          (H.setStorage s.message.destination k v) : Int) < 0 then
        ({ s with
            stack := rest
            gas_left := s.gas_left - (sstoreCost s.evm_revision
              (H.accessStorage s.message.destination k)
              (H.setStorage s.message.destination k v) : Int) },
          (if s.evm_revision.ge .Berlin then
            [InterruptData.AccessStorage s.message.destination k] else []) ++
            [.SetStorage s.message.destination k v],
          some .OutOfGas)
      else
        ({ s with
            stack := rest
            gas_left := s.gas_left - (sstoreCost s.evm_revision
              (H.accessStorage s.message.destination k)
              (H.setStorage s.message.destination k v) : Int) },
          (if s.evm_revision.ge .Berlin then
            [InterruptData.AccessStorage s.message.destination k] else []) ++
            [.SetStorage s.message.destination k v],
          none)) := by
  unfold sstore
  rw [if_neg (by simp [hstatic]), if_neg hguard]
  simp [hstack, pop]

/-- Claim C3: for each StorageStatus and each of the revisions Frontier,
Constantinople, Istanbul and Berlin, the gas SSTORE deducts (with the
guards passed and enough gas to succeed) is exactly the spec's section 4.3
table value `sstoreSpecCost`. -/
theorem sstore_pricing_table (H : Host) (s : ExecutionState) (k v : Nat)
    (rest : List Nat) (hstatic : s.message.is_static = false)
    (hrev : s.evm_revision = .Frontier ∨ s.evm_revision = .Constantinople ∨
            s.evm_revision = .Istanbul ∨ s.evm_revision = .Berlin)
    (hstack : s.stack = k :: v :: rest) (hgas : 30000 ≤ s.gas_left) :
    (sstore H s).2.2 = none ∧
    s.gas_left - (sstore H s).1.gas_left =
      (sstoreSpecCost s.evm_revision
        (H.accessStorage s.message.destination k)
        (H.setStorage s.message.destination k v) : Int) := by
  have hle := sstoreCost_le s.evm_revision
    (H.accessStorage s.message.destination k)
    (H.setStorage s.message.destination k v)
  have hcast : ((sstoreCost s.evm_revision
      (H.accessStorage s.message.destination k)
      (H.setStorage s.message.destination k v) : Nat) : Int) ≤ 22100 := by
    exact_mod_cast hle
  have hng : ¬(s.gas_left - (sstoreCost s.evm_revision
      (H.accessStorage s.message.destination k)
      (H.setStorage s.message.destination k v) : Int) < 0) := by omega
  rw [sstore_run H s k v rest hstatic (by rintro ⟨-, h⟩; omega) hstack,
    if_neg hng]
  refine ⟨rfl, ?_⟩
  rw [← sstoreCost_eq_spec s.evm_revision
    (H.accessStorage s.message.destination k)
    (H.setStorage s.message.destination k v)]
  exact (by omega :
    s.gas_left - (s.gas_left - ((sstoreCost s.evm_revision
        (H.accessStorage s.message.destination k)
        (H.setStorage s.message.destination k v) : Nat) : Int)) =
      ((sstoreCost s.evm_revision
        (H.accessStorage s.message.destination k)
        (H.setStorage s.message.destination k v) : Nat) : Int))

/-- Witness for C3 at Berlin with a Cold access and an Added write:
deduction 22100 = 20000 + 2100. -/
theorem sstore_pricing_table_witness :
    ((⟨[1, 2], [], 50000, msg0, .Berlin⟩ : ExecutionState).message.is_static = false ∧
     (⟨[1, 2], [], 50000, msg0, .Berlin⟩ : ExecutionState).evm_revision = .Berlin ∧
     (30000 : Int) ≤ (⟨[1, 2], [], 50000, msg0, .Berlin⟩ : ExecutionState).gas_left) ∧
    (sstore hostCold ⟨[1, 2], [], 50000, msg0, .Berlin⟩).2.2 = none ∧
    (⟨[1, 2], [], 50000, msg0, .Berlin⟩ : ExecutionState).gas_left -
      (sstore hostCold ⟨[1, 2], [], 50000, msg0, .Berlin⟩).1.gas_left = 22100 :=
  ⟨⟨rfl, rfl, by decide⟩,
   (sstore_pricing_table hostCold ⟨[1, 2], [], 50000, msg0, .Berlin⟩ 1 2 []
      rfl (by decide) rfl (by decide)).1,
   ((sstore_pricing_table hostCold ⟨[1, 2], [], 50000, msg0, .Berlin⟩ 1 2 []
      rfl (by decide) rfl (by decide)).2).trans (by decide)⟩

/-- Claim C9: once SSTORE passes the static and stipend guards, the
SetStorage write request is always part of the issued request trace — the
single dynamic-cost deduction happens only after the StorageStatus answer
— so when the deduction drives `gas_left` negative the handler returns
OutOfGas with the write already submitted to the host. -/
theorem sstore_write_before_charge (H : Host) (s : ExecutionState)
    (k v : Nat) (rest : List Nat) (hstatic : s.message.is_static = false)
    (hguard : ¬(s.evm_revision.ge .Istanbul = true ∧ s.gas_left ≤ 2300))
    (hstack : s.stack = k :: v :: rest) :
    InterruptData.SetStorage s.message.destination k v ∈ (sstore H s).2.1 ∧
    (s.gas_left < (sstoreCost s.evm_revision
        (H.accessStorage s.message.destination k)
        (H.setStorage s.message.destination k v) : Int) →
      (sstore H s).2.2 = some .OutOfGas) := by
  rw [sstore_run H s k v rest hstatic hguard hstack]
  constructor
  · split <;> simp
  · intro hlt
    rw [if_pos (show s.gas_left - (sstoreCost s.evm_revision
        (H.accessStorage s.message.destination k)
        (H.setStorage s.message.destination k v) : Int) < 0 by omega)]

/-- Witness for C9 at Frontier with 10 gas: the Added write costs 20000,
OutOfGas is returned, and the SetStorage request was already issued. -/
theorem sstore_write_before_charge_witness :
    ((⟨[1, 2], [], 10, msg0, .Frontier⟩ : ExecutionState).message.is_static = false ∧
     ¬((⟨[1, 2], [], 10, msg0, .Frontier⟩ : ExecutionState).evm_revision.ge .Istanbul = true ∧
       (⟨[1, 2], [], 10, msg0, .Frontier⟩ : ExecutionState).gas_left ≤ 2300)) ∧
    InterruptData.SetStorage 221 1 2 ∈
      (sstore hostCold ⟨[1, 2], [], 10, msg0, .Frontier⟩).2.1 ∧
    (sstore hostCold ⟨[1, 2], [], 10, msg0, .Frontier⟩).2.2 = some .OutOfGas :=
  ⟨⟨rfl, by decide⟩,
   (sstore_write_before_charge hostCold ⟨[1, 2], [], 10, msg0, .Frontier⟩ 1 2 []
      rfl (by decide) rfl).1,
   (sstore_write_before_charge hostCold ⟨[1, 2], [], 10, msg0, .Frontier⟩ 1 2 []
      rfl (by decide) rfl).2 (by decide)⟩

/-- Run of the non-existent-beneficiary branch of SELFDESTRUCT with enough
gas: it charges 25000 exactly when the beneficiary does not exist. -/
lemma selfdestruct_charge_run (H : Host) (b : Nat) (s : ExecutionState)
    (reqs : List InterruptData) (hgas : 25000 ≤ s.gas_left) :
    (selfdestruct_charge H b s reqs).2.2 = none ∧
    (selfdestruct_charge H b s reqs).1.gas_left =
      s.gas_left - (if H.accountExists b = false then (25000 : Int) else 0) := by
  have hng : ¬(s.gas_left - (25000 : Int) < 0) := by omega
  unfold selfdestruct_charge
  cases hb : H.accountExists b <;> simp [hb, hng]

/-- Run of the Tangerine-gated part of SELFDESTRUCT with enough gas: 25000
is deducted exactly when (at Tangerine) the beneficiary does not exist, or
(after Tangerine) the destination balance is non-zero and the beneficiary
does not exist; never before Tangerine. -/
lemma selfdestruct_tail_run (H : Host) (b : Nat) (s : ExecutionState)
    (reqs : List InterruptData) (hgas : 25000 ≤ s.gas_left) :
    (selfdestruct_tail H b s reqs).2.2 = none ∧
    (selfdestruct_tail H b s reqs).1.gas_left =
      s.gas_left -
        (if (s.evm_revision = .Tangerine ∧ H.accountExists b = false)
            ∨ (Revision.Tangerine.idx < s.evm_revision.idx ∧
               ¬H.getBalance s.message.destination = 0 ∧
               H.accountExists b = false)
         then (25000 : Int) else 0) := by
  unfold selfdestruct_tail
  cases hrev : s.evm_revision <;>
    by_cases hbal : H.getBalance s.message.destination = 0 <;>
      cases hb : H.accountExists b <;>
        simp [hrev, hbal, hb, Revision.ge, Revision.idx,
          selfdestruct_charge_run H b s, hgas]

/-- Full gas/status characterization of a successful SELFDESTRUCT run:
the deduction is the full cold-account-access cost when the Berlin-gated
access query reports Cold, plus the Tangerine-gated 25000 surcharge. -/
lemma selfdestruct_run (H : Host) (s : ExecutionState) (w : Nat)
    (rest : List Nat) (hstatic : s.message.is_static = false)
    (hstack : s.stack = w :: rest) (hgas : 30000 ≤ s.gas_left) :
    (selfdestruct H s).2.2 = none ∧
    (selfdestruct H s).1.gas_left = s.gas_left -
      ((if s.evm_revision.ge .Berlin = true ∧
           H.accessAccount (u256_to_address w) = .Cold
        then (COLD_ACCOUNT_ACCESS_COST : Int) else 0)
       + (if (s.evm_revision = .Tangerine ∧
              H.accountExists (u256_to_address w) = false)
             ∨ (Revision.Tangerine.idx < s.evm_revision.idx ∧
                ¬H.getBalance s.message.destination = 0 ∧
                H.accountExists (u256_to_address w) = false)
          then (25000 : Int) else 0)) := by
  have e1 : (COLD_ACCOUNT_ACCESS_COST : Int) = 2600 := rfl
  unfold selfdestruct
  rw [if_neg (by simp [hstatic])]
  simp only [hstack, pop]
  by_cases hbl : s.evm_revision.ge .Berlin = true
  · rw [if_pos hbl]
    by_cases hac : H.accessAccount (u256_to_address w) = .Cold
    · rw [if_pos hac, if_neg (show ¬(s.gas_left -
        (COLD_ACCOUNT_ACCESS_COST : Int) < 0) by omega)]
      have ht := selfdestruct_tail_run H (u256_to_address w)
        ⟨rest, s.memory, s.gas_left - (COLD_ACCOUNT_ACCESS_COST : Int),
          s.message, s.evm_revision⟩
        [.AccessAccount (u256_to_address w)] (by simp; omega)
      dsimp only at ht
      refine ⟨ht.1, ?_⟩
      rw [ht.2, if_pos (show s.evm_revision.ge .Berlin = true ∧
        H.accessAccount (u256_to_address w) = .Cold from ⟨hbl, hac⟩)]
      by_cases hcond : (s.evm_revision = .Tangerine ∧
          H.accountExists (u256_to_address w) = false)
          ∨ (Revision.Tangerine.idx < s.evm_revision.idx ∧
             ¬H.getBalance s.message.destination = 0 ∧
             H.accountExists (u256_to_address w) = false)
      · rw [if_pos hcond]; ring
      · rw [if_neg hcond]; ring
    · rw [if_neg hac]
      have ht := selfdestruct_tail_run H (u256_to_address w)
        ⟨rest, s.memory, s.gas_left, s.message, s.evm_revision⟩
        [.AccessAccount (u256_to_address w)] (by simp; omega)
      dsimp only at ht
      refine ⟨ht.1, ?_⟩
      rw [ht.2, if_neg (show ¬(s.evm_revision.ge .Berlin = true ∧
        H.accessAccount (u256_to_address w) = .Cold) from fun h => hac h.2)]
      by_cases hcond : (s.evm_revision = .Tangerine ∧
          H.accountExists (u256_to_address w) = false)
          ∨ (Revision.Tangerine.idx < s.evm_revision.idx ∧
             ¬H.getBalance s.message.destination = 0 ∧
             H.accountExists (u256_to_address w) = false)
      · rw [if_pos hcond]; ring
      · rw [if_neg hcond]; ring
  · rw [if_neg hbl]
    have ht := selfdestruct_tail_run H (u256_to_address w)
      ⟨rest, s.memory, s.gas_left, s.message, s.evm_revision⟩ []
      (by simp; omega)
    dsimp only at ht
    refine ⟨ht.1, ?_⟩
    rw [ht.2, if_neg (show ¬(s.evm_revision.ge .Berlin = true ∧
      H.accessAccount (u256_to_address w) = .Cold) from fun h => hbl h.1)]
    by_cases hcond : (s.evm_revision = .Tangerine ∧
        H.accountExists (u256_to_address w) = false)
        ∨ (Revision.Tangerine.idx < s.evm_revision.idx ∧
           ¬H.getBalance s.message.destination = 0 ∧
           H.accountExists (u256_to_address w) = false)
    · rw [if_pos hcond]; ring
    · rw [if_neg hcond]; ring

/-- Claim C7: a successful SELFDESTRUCT deducts the 25000
non-existent-beneficiary surcharge exactly when, at revision exactly
Tangerine, the beneficiary does not exist (regardless of the destination's
balance), or, at any revision strictly after Tangerine, the destination's
balance is non-zero and the beneficiary does not exist; before Tangerine
it is never deducted. The first summand is the separate Berlin cold-access
charge. -/
theorem selfdestruct_beneficiary_surcharge (H : Host) (s : ExecutionState)
    (w : Nat) (rest : List Nat) (hstatic : s.message.is_static = false)
    (hstack : s.stack = w :: rest) (hgas : 30000 ≤ s.gas_left) :
    (selfdestruct H s).2.2 = none ∧
    (selfdestruct H s).1.gas_left = s.gas_left -
      ((if s.evm_revision.ge .Berlin = true ∧
           H.accessAccount (u256_to_address w) = .Cold
        then (COLD_ACCOUNT_ACCESS_COST : Int) else 0)
       + (if (s.evm_revision = .Tangerine ∧
              H.accountExists (u256_to_address w) = false)
             ∨ (Revision.Tangerine.idx < s.evm_revision.idx ∧
                ¬H.getBalance s.message.destination = 0 ∧
                H.accountExists (u256_to_address w) = false)
          then (25000 : Int) else 0)) :=
  selfdestruct_run H s w rest hstatic hstack hgas

/-- Witness for C7 at exactly Tangerine: the beneficiary does not exist,
the destination balance is non-zero but irrelevant, and exactly 25000 is
deducted (no Berlin cold charge at Tangerine). -/
theorem selfdestruct_beneficiary_surcharge_witness :
    ((⟨[9], [], 50000, msg0, .Tangerine⟩ : ExecutionState).message.is_static = false ∧
     (30000 : Int) ≤ (⟨[9], [], 50000, msg0, .Tangerine⟩ : ExecutionState).gas_left ∧
     hostCold.accountExists (u256_to_address 9) = false) ∧
    (selfdestruct hostCold ⟨[9], [], 50000, msg0, .Tangerine⟩).2.2 = none ∧
    (selfdestruct hostCold ⟨[9], [], 50000, msg0, .Tangerine⟩).1.gas_left = 25000 :=
  ⟨⟨rfl, by decide, rfl⟩,
   (selfdestruct_beneficiary_surcharge hostCold
      ⟨[9], [], 50000, msg0, .Tangerine⟩ 9 [] rfl rfl (by decide)).1,
   ((selfdestruct_beneficiary_surcharge hostCold
      ⟨[9], [], 50000, msg0, .Tangerine⟩ 9 [] rfl rfl (by decide)).2).trans
     (by decide)⟩

/-- Claim C8: for revisions at least Berlin with the beneficiary reported
Cold, SELFDESTRUCT deducts the full cold-account-access cost (not the
cold-minus-warm surcharge), and returns OutOfGas if that deduction alone
drives the gas negative; on a successful run the total deduction is the
full cold cost plus the (independent) 25000 surcharge. -/
theorem selfdestruct_cold_full_cost (H : Host) (s : ExecutionState)
    (w : Nat) (rest : List Nat) (hstatic : s.message.is_static = false)
    (hstack : s.stack = w :: rest)
    (hrevb : s.evm_revision.ge .Berlin = true)
    (hcold : H.accessAccount (u256_to_address w) = .Cold) :
    (s.gas_left - (COLD_ACCOUNT_ACCESS_COST : Int) < 0 →
       selfdestruct H s =
         (⟨rest, s.memory, s.gas_left - (COLD_ACCOUNT_ACCESS_COST : Int),
            s.message, s.evm_revision⟩,
           [.AccessAccount (u256_to_address w)], some .OutOfGas)) ∧
    (30000 ≤ s.gas_left →
       (selfdestruct H s).2.2 = none ∧
       s.gas_left - (selfdestruct H s).1.gas_left =
         (COLD_ACCOUNT_ACCESS_COST : Int) +
           (if (s.evm_revision = .Tangerine ∧
                H.accountExists (u256_to_address w) = false)
               ∨ (Revision.Tangerine.idx < s.evm_revision.idx ∧
                  ¬H.getBalance s.message.destination = 0 ∧
                  H.accountExists (u256_to_address w) = false)
            then (25000 : Int) else 0)) := by
  constructor
  · intro hlt
    unfold selfdestruct
    rw [if_neg (by simp [hstatic])]
    simp only [hstack, pop]
    rw [if_pos hrevb, if_pos hcold, if_pos hlt]
  · intro hgas
    have hr := selfdestruct_run H s w rest hstatic hstack hgas
    refine ⟨hr.1, ?_⟩
    rw [hr.2, if_pos (show s.evm_revision.ge .Berlin = true ∧
      H.accessAccount (u256_to_address w) = .Cold from ⟨hrevb, hcold⟩)]
    ring

/-- Witness for C8 at Berlin with a Cold beneficiary access: the total
deduction is 27600 = 2600 (full cold cost) + 25000 (surcharge). -/
theorem selfdestruct_cold_full_cost_witness :
    ((⟨[9], [], 50000, msg0, .Berlin⟩ : ExecutionState).evm_revision.ge .Berlin = true ∧
     hostCold.accessAccount (u256_to_address 9) = .Cold) ∧
    (selfdestruct hostCold ⟨[9], [], 50000, msg0, .Berlin⟩).2.2 = none ∧
    (⟨[9], [], 50000, msg0, .Berlin⟩ : ExecutionState).gas_left -
      (selfdestruct hostCold ⟨[9], [], 50000, msg0, .Berlin⟩).1.gas_left = 27600 :=
  ⟨⟨rfl, rfl⟩,
   ((selfdestruct_cold_full_cost hostCold ⟨[9], [], 50000, msg0, .Berlin⟩
       9 [] rfl rfl rfl rfl).2 (by decide)).1,
   (((selfdestruct_cold_full_cost hostCold ⟨[9], [], 50000, msg0, .Berlin⟩
       9 [] rfl rfl rfl rfl).2 (by decide)).2).trans (by decide)⟩

/-- Claim C10: BALANCE, EXTCODESIZE and SELFDESTRUCT use only the low 160
bits of the popped word: operand words that agree modulo 2^160 yield
identical outcomes (same host requests, same state, same status),
whatever their high 96 bits. -/
theorem address_truncation_low160 (H : Host) (s : ExecutionState)
    (w1 w2 : Nat) (rest : List Nat) (hstatic : s.message.is_static = false)
    (h : w1 % 2 ^ 160 = w2 % 2 ^ 160) :
    balance H { s with stack := w1 :: rest } =
      balance H { s with stack := w2 :: rest } ∧
    extcodesize H { s with stack := w1 :: rest } =
      extcodesize H { s with stack := w2 :: rest } ∧
    selfdestruct H { s with stack := w1 :: rest } =
      selfdestruct H { s with stack := w2 :: rest } := by
  have hu : u256_to_address w1 = u256_to_address w2 := h
  refine ⟨?_, ?_, ?_⟩ <;>
    simp [balance, extcodesize, selfdestruct, pop, hu, hstatic]

/-- Witness for C10 with w1 = 2^160 + 66 and w2 = 66. -/
theorem address_truncation_low160_witness :
    (2 ^ 160 + 66) % 2 ^ 160 = 66 % 2 ^ 160 ∧
    balance hostCold { (⟨[], [], 50000, msg0, .Berlin⟩ : ExecutionState) with
        stack := (2 ^ 160 + 66) :: [] } =
      balance hostCold { (⟨[], [], 50000, msg0, .Berlin⟩ : ExecutionState) with
        stack := 66 :: [] } ∧
    selfdestruct hostCold { (⟨[], [], 50000, msg0, .Berlin⟩ : ExecutionState) with
        stack := (2 ^ 160 + 66) :: [] } =
      selfdestruct hostCold { (⟨[], [], 50000, msg0, .Berlin⟩ : ExecutionState) with
        stack := 66 :: [] } :=
  ⟨by decide,
   (address_truncation_low160 hostCold ⟨[], [], 50000, msg0, .Berlin⟩
      (2 ^ 160 + 66) 66 [] rfl (by decide)).1,
   (address_truncation_low160 hostCold ⟨[], [], 50000, msg0, .Berlin⟩
      (2 ^ 160 + 66) 66 [] rfl (by decide)).2.2⟩

end Evmodin
